import Mathlib

/-!
# measurefs: the command that digests a filesystem and extends a PCR

A shallow embedding of `grub_cmd_measurefs` (grub-core/commands/measurefs.c).

The command is straight-line code around calls to collaborators that live
outside the file: `grub_device_open`, `grub_device_close`, `grub_fs_probe`,
the filesystem's `digest` function pointer, `grub_malloc`, `grub_free`,
`grub_snprintf`, `grub_strtoul`, `grub_tpm_measure`, `grub_error` and the
print functions.  Every collaborator whose answer steers the command is a
field of `Env`; every call the command makes is recorded, in program order,
as an `Event`.  The command is then a total function from an environment and
its three C arguments to the returned `grub_err_t` and the trace of calls.
-/

namespace Measurefs

set_option autoImplicit false

/-! ## Data model -/

/-- The error codes of `grub_err_t` that the command names, and every other
code as `GRUB_ERR_OTHER n` (the enumeration itself is declared in grub/err.h). -/
inductive grub_err_t where
  | GRUB_ERR_NONE
  | GRUB_ERR_BAD_ARGUMENT
  | GRUB_ERR_BAD_DEVICE
  | GRUB_ERR_BAD_FS
  | GRUB_ERR_OUT_OF_MEMORY
  | GRUB_ERR_OTHER (code : Nat)
  deriving DecidableEq, Repr

open grub_err_t

/-- What `grub_device_t` points to: the two backend pointers the command
inspects, `none` standing for a NULL pointer. -/
structure grub_device where
  disk : Option Nat
  net : Option Nat
  deriving DecidableEq, Repr

/-- What a call of the `digest` function pointer leaves behind: the returned
error code, the memory starting at `result` (byte at each offset; offsets
below `GRUB_CRYPTO_MAX_MDLEN` are the buffer itself), and the value of
`result_len`. -/
structure digest_outcome where
  err : grub_err_t
  result : Nat → Nat
  result_len : Int

/-- What `grub_fs_t` points to: the name and the optional `digest` function
pointer (`none` for NULL), called as `digest (dev, hashalg, &result, &result_len)`. -/
structure grub_fs where
  name : String
  digest : Option (grub_device → String → digest_outcome)

/-- One entry of `struct grub_arg_list`: the `set` flag and the argument text. -/
structure grub_arg_list where
  set : Int
  arg : String

/-- The part of `grub_extcmd_context` the command reads: `state[i]`. -/
structure grub_extcmd_context where
  state : Nat → grub_arg_list

/-- An argument handed to a printf-style function. -/
inductive fmt_arg where
  | str (s : String)
  | int (i : Int)
  deriving DecidableEq, Repr

/-- The calls the command makes, with the values of their arguments, and the
reads `result[j]` of the digest buffer made by the command itself. -/
inductive Event where
  | grub_error (code : grub_err_t) (fmt : String) (args : List fmt_arg)
  | grub_strtoul (str : String) (base : Nat)
  | grub_printf (fmt : String) (args : List fmt_arg)
  | grub_dprintf (condition : String) (fmt : String) (args : List fmt_arg)
  | grub_device_open (name : String)
  | grub_fs_probe (dev : grub_device)
  | digest (dev : grub_device) (hashalg : String)
  | grub_malloc (size : Int)
  | read_result (j : Nat)
  | grub_snprintf (offset : Int) (n : Nat) (fmt : String) (value : Nat)
  | grub_tpm_measure (buf : List Nat) (size : Int) (pcr : Int) (kind : String)
      (description : List Nat)
  | grub_free
  | grub_device_close (dev : grub_device)
  deriving DecidableEq, Repr

/-- The collaborators whose answers steer the command.

* `grub_strtoul str base`: the `unsigned long` returned for `str` (the call
  passes a NULL end pointer).
* `grub_device_open name`: the opened device, or, for a NULL return, the
  value of `grub_errno` the command then reads.
* `grub_fs_probe dev`: the detected filesystem, `none` for NULL.
* `grub_malloc size`: `none` for NULL, else the bytes initially found in the
  fresh block (byte at each offset); `size` is the value of the `int`
  argument expression.
* `grub_tpm_measure buf size pcr kind description`: the returned code. -/
structure Env where
  grub_strtoul : String → Nat → Nat
  grub_device_open : String → Except grub_err_t grub_device
  grub_fs_probe : grub_device → Option grub_fs
  grub_malloc : Int → Option (Nat → Nat)
  grub_tpm_measure : List Nat → Int → Int → String → List Nat → grub_err_t

/-! ## Constants and machine arithmetic -/

/-- Modelled from the spec: the constant `GRUB_BINARY_PCR` of grub/tpm.h,
which is not part of the sources at hand; the spec gives the resolved
default PCR index as 9, as does the help text of the `pcr` option. -/
def GRUB_BINARY_PCR : Int := 9

/-- Modelled from the spec: the constant `GRUB_CRYPTO_MAX_MDLEN` of
grub/crypto.h, the capacity of the digest buffer, given by the spec as 64. -/
def GRUB_CRYPTO_MAX_MDLEN : Nat := 64

/-- The value an `int` (32 bits, two's complement) holds after an integer
`x` is stored in it or computed in it. -/
def to_int (x : Int) : Int := (x + 2147483648) % 4294967296 - 2147483648

/-! ## The hex-encoding loop -/

/-- The character code of the lowercase hexadecimal digit for `n < 16`. -/
def hex_digit (n : Nat) : Nat := if n < 10 then 48 + n else 87 + n

/-- Modelled from the spec: the text `grub_snprintf` produces for the format
`"%02x"` (grub_snprintf is not part of the sources at hand): the unsigned
value in lowercase hexadecimal, most significant digit first, padded on the
left with `0` to at least two characters. -/
def fmt_02x (v : Nat) : List Nat :=
  let digits := (Nat.toDigits 16 v).map Char.toNat
  List.replicate (2 - digits.length) 48 ++ digits

/-- Store the bytes `bs` in `block` from index `i` on; a store outside the
block is not represented. -/
def poke : List Nat → Nat → List Nat → List Nat
  | block, _, [] => block
  | block, i, b :: bs => poke (block.set i b) (i + 1) bs

/-- Modelled from the spec: `grub_snprintf (block + offset, n, fmt, ...)` for
the already formatted text `text`: at most `n - 1` characters of the text and
then a terminating zero byte are stored; nothing is stored when `n = 0`. -/
def grub_snprintf (block : List Nat) (offset : Int) (n : Nat) (text : List Nat) : List Nat :=
  if n = 0 then block
  else if offset < 0 then block
  else poke block offset.toNat (text.take (n - 1) ++ [0])

/-- The byte `((grub_uint8_t *) result)[j]`. -/
def result_byte (result : Nat → Nat) (j : Nat) : Nat := result j % 256

/-- One pass of the loop body at index `j`:
`grub_snprintf (result_str + j * 2, 3, "%02x", ((grub_uint8_t *) result)[j])`. -/
def hex_step (result : Nat → Nat) (block : List Nat) (j : Nat) : List Nat :=
  grub_snprintf block (to_int ((j : Int) * 2)) 3 (fmt_02x (result_byte result j))

/-- The loop `for (j = 0; j < result_len; j++)` over the block. -/
def hex_loop (result : Nat → Nat) (result_len : Int) (block : List Nat) : List Nat :=
  (List.range result_len.toNat).foldl (hex_step result) block

/-- What the loop does besides storing: for each `j`, in order, the read of
`result[j]` and the `grub_snprintf` call. -/
def hex_loop_events (result : Nat → Nat) (result_len : Int) : List Event :=
  (List.range result_len.toNat).flatMap fun (j : Nat) =>
    [Event.read_result j,
     Event.grub_snprintf (to_int ((j : Int) * 2)) 3 "%02x" (result_byte result j)]

/-- The fresh block `grub_malloc` hands out for a request of `size` bytes,
holding whatever `initial` says was there before. -/
def fresh_block (size : Int) (initial : Nat → Nat) : List Nat :=
  (List.range size.toNat).map initial

/-- The first `result_len` bytes at `result`: what `grub_tpm_measure` is
given as `buf` with `size = result_len`. -/
def digest_bytes (result : Nat → Nat) (result_len : Int) : List Nat :=
  (List.range result_len.toNat).map (result_byte result)

/-- The C string stored in a block: the bytes before the first zero byte,
`none` when the block holds no zero byte. -/
def c_string (block : List Nat) : Option (List Nat) :=
  if 0 ∈ block then some (block.takeWhile (· ≠ 0)) else none

/-! ## The command -/

/-- The statements from `fs = grub_fs_probe (dev)` to the label `error:`,
for an opened device that passed the network check. -/
def measure_device (env : Env) (dev : grub_device) (name hashalg : String) (pcr : Int) :
    grub_err_t × List Event :=
  match env.grub_fs_probe dev with
  | none =>
    (GRUB_ERR_BAD_FS,
      [Event.grub_fs_probe dev,
       Event.grub_error GRUB_ERR_BAD_FS "cannot find a filesystem on `%s'" [fmt_arg.str name]])
  | some fs =>
    let t := [Event.grub_fs_probe dev,
              Event.grub_dprintf "measurefs" "FS: %s\n" [fmt_arg.str fs.name]]
    match fs.digest with
    | none =>
      (GRUB_ERR_NONE,
        t ++ [Event.grub_printf "measurefs: FS %s doesn't support digest()\n"
                [fmt_arg.str fs.name]])
    | some digest =>
      let out := digest dev hashalg
      let t := t ++ [Event.digest dev hashalg]
      if out.err = GRUB_ERR_NONE then
        let size := to_int (out.result_len * 2 + 1)
        match env.grub_malloc size with
        | none => (GRUB_ERR_OUT_OF_MEMORY, t ++ [Event.grub_malloc size])
        | some initial =>
          let result_str := hex_loop out.result out.result_len (fresh_block size initial)
          let buf := digest_bytes out.result out.result_len
          (env.grub_tpm_measure buf out.result_len pcr fs.name result_str,
            t ++ [Event.grub_malloc size] ++ hex_loop_events out.result out.result_len ++
              [Event.grub_tpm_measure buf out.result_len pcr fs.name result_str,
               Event.grub_free])
      else (out.err, t)

/-- The PCR index: `GRUB_BINARY_PCR`, or with `state[0].set` the
`unsigned long` result of `grub_strtoul (state[0].arg, 0, 10)` stored in the
`int pcr`. -/
def pcr_index (env : Env) (ctxt : grub_extcmd_context) : Int :=
  if (ctxt.state 0).set ≠ 0 then to_int (env.grub_strtoul (ctxt.state 0).arg 10)
  else GRUB_BINARY_PCR

/-- The hash name: `"sha256"`, or with `state[1].set` the text `state[1].arg`. -/
def hash_name (ctxt : grub_extcmd_context) : String :=
  if (ctxt.state 1).set ≠ 0 then (ctxt.state 1).arg else "sha256"

/-- The command `grub_cmd_measurefs (ctxt, argc, args)`: the returned code
and the calls made, in order. -/
def grub_cmd_measurefs (env : Env) (ctxt : grub_extcmd_context) (argc : Int)
    (args : Nat → String) : grub_err_t × List Event :=
  if argc > 0 then
    let name := args 0
    let pcr := pcr_index env ctxt
    let t_pcr : List Event :=
      if (ctxt.state 0).set ≠ 0 then [Event.grub_strtoul (ctxt.state 0).arg 10] else []
    let hashalg := hash_name ctxt
    let t := t_pcr ++
      [Event.grub_printf "measurefs: Measuring %s into PCR-%d\n" [fmt_arg.str name, fmt_arg.int pcr],
       Event.grub_device_open name]
    match env.grub_device_open name with
    | Except.error errno => (errno, t)
    | Except.ok dev =>
      if dev.disk = none ∧ dev.net ≠ none then
        (GRUB_ERR_BAD_DEVICE,
          t ++ [Event.grub_error GRUB_ERR_BAD_DEVICE "Network devices [`%s'] are not supported"
                  [fmt_arg.str name],
                Event.grub_device_close dev])
      else
        let r := measure_device env dev name hashalg pcr
        (r.1, t ++ r.2 ++ [Event.grub_device_close dev])
  else
    (GRUB_ERR_BAD_ARGUMENT,
      [Event.grub_error GRUB_ERR_BAD_ARGUMENT "device name expected" []])

/-! ## Reading a trace -/

/-- The devices handed to `grub_device_close`, in order. -/
def closes (t : List Event) : List grub_device :=
  t.filterMap fun e => match e with
    | Event.grub_device_close dev => some dev
    | _ => none

/-- The `grub_tpm_measure` calls of a trace, in order. -/
def tpm_calls (t : List Event) : List Event :=
  t.filter fun e => match e with
    | Event.grub_tpm_measure _ _ _ _ _ => true
    | _ => false

/-- The number of `grub_device_open` calls. -/
def opens (t : List Event) : Nat :=
  t.countP fun e => match e with
    | Event.grub_device_open _ => true
    | _ => false

/-- The number of `grub_fs_probe` calls. -/
def probes (t : List Event) : Nat :=
  t.countP fun e => match e with
    | Event.grub_fs_probe _ => true
    | _ => false

/-- The number of calls of a `digest` function pointer. -/
def digests (t : List Event) : Nat :=
  t.countP fun e => match e with
    | Event.digest _ _ => true
    | _ => false

/-- The sizes requested from `grub_malloc`, in order. -/
def mallocs (t : List Event) : List Int :=
  t.filterMap fun e => match e with
    | Event.grub_malloc size => some size
    | _ => none

/-- The offsets `j` of the reads `result[j]`, in order. -/
def result_reads (t : List Event) : List Nat :=
  t.filterMap fun e => match e with
    | Event.read_result j => some j
    | _ => none

/-! ## The spec side of the hex encoding -/

/-- The lowercase hexadecimal text of a byte sequence: two digits per byte,
most significant nibble first. -/
def hex_encode (b : List Nat) : List Nat :=
  b.flatMap fun x => [hex_digit (x / 16), hex_digit (x % 16)]

/-- The value of a hexadecimal digit character (`0`-`9`, `a`-`f`). -/
def hex_value (c : Nat) : Option Nat :=
  if 48 ≤ c ∧ c ≤ 57 then some (c - 48)
  else if 97 ≤ c ∧ c ≤ 102 then some (c - 87)
  else none

/-- Decode hexadecimal text, two digits per byte. -/
def hex_decode : List Nat → Option (List Nat)
  | [] => some []
  | [_] => none
  | hi :: lo :: rest =>
    match hex_value hi, hex_value lo, hex_decode rest with
    | some h, some l, some bs => some ((16 * h + l) :: bs)
    | _, _, _ => none

/-- The events up to and including the `grub_device_open` call. -/
def opening_events (env : Env) (ctxt : grub_extcmd_context) (name : String) : List Event :=
  (if (ctxt.state 0).set ≠ 0 then [Event.grub_strtoul (ctxt.state 0).arg 10] else []) ++
    [Event.grub_printf "measurefs: Measuring %s into PCR-%d\n"
       [fmt_arg.str name, fmt_arg.int (pcr_index env ctxt)],
     Event.grub_device_open name]

/-! ## The digest capability, from the spec -/

/-- Modelled from the spec: a hash algorithm that a digest capability
supports (the digest functions of the filesystems and the hash algorithms
are outside measurefs.c).  A digest is the fixed-length output of a hash
function applied to filesystem content: `mdlen` is that length and
`hash content i` is byte `i` of the output. -/
structure hash_algorithm where
  name : String
  mdlen : Nat
  hash : List Nat → Nat → Nat

/-- Modelled from the spec: the capacity of the digest buffer is the maximum
digest length over all supported algorithms. -/
def digest_capacity (algorithms : List hash_algorithm) : Nat :=
  (algorithms.map fun a => a.mdlen).foldr max 0

/-- Modelled from the spec: the digest capability of a filesystem, called as
`digest (dev, hashalg, &result, &result_len)`.  The hash name is not validated
by the caller: an unknown name surfaces as a failure of this call, as does an
error while reading the content.  Otherwise the capability fills the buffer
with the digest of the content under the named algorithm and reports its
length.  After a failure the command reads neither the buffer nor the length;
they are shown as zero. -/
def spec_digest (algorithms : List hash_algorithm)
    (read_content : grub_device → Except Nat (List Nat)) (unknown_algorithm : Nat) :
    grub_device → String → digest_outcome :=
  fun dev hashalg =>
    match algorithms.find? fun a => a.name = hashalg with
    | none =>
      { err := GRUB_ERR_OTHER unknown_algorithm, result := fun _ => 0, result_len := 0 }
    | some a =>
      match read_content dev with
      | Except.error code =>
        { err := GRUB_ERR_OTHER code, result := fun _ => 0, result_len := 0 }
      | Except.ok content =>
        { err := GRUB_ERR_NONE,
          result := fun j => if j < a.mdlen then a.hash content j % 256 else 0,
          result_len := (a.mdlen : Int) }

/-! ## Concrete machines for the scenarios -/

/-- The value of a decimal numeral, as `grub_strtoul` with base 10 reads it
as long as the value fits an `unsigned long`. -/
def decimal_value (s : String) : Nat :=
  s.data.foldl (fun n c => 10 * n + (c.toNat - 48)) 0

/-- The SHA-256 digest of the empty input, 32 bytes. -/
def sample_digest : List Nat :=
  [0xe3, 0xb0, 0xc4, 0x42, 0x98, 0xfc, 0x1c, 0x14, 0x9a, 0xfb, 0xf4, 0xc8, 0x99, 0x6f, 0xb9,
   0x24, 0x27, 0xae, 0x41, 0xe4, 0x64, 0x9b, 0x93, 0x4c, 0xa4, 0x95, 0x99, 0x1b, 0x78, 0x52,
   0xb8, 0x55]

/-- A stand-in for the four hash algorithms of the sample machine; the digest
of "sha256" is `sample_digest`, the others are filled with a fixed byte. -/
def sample_algorithms : List hash_algorithm :=
  [{ name := "md5", mdlen := 16, hash := fun _ _ => 0x11 },
   { name := "sha1", mdlen := 20, hash := fun _ _ => 0x22 },
   { name := "sha256", mdlen := 32, hash := fun _ j => sample_digest.getD j 0 },
   { name := "sha512", mdlen := 64, hash := fun _ _ => 0x33 }]

/-- A filesystem with a digest function over `sample_algorithms`; its content
is read without error. -/
def squash4 : grub_fs where
  name := "squash4"
  digest := some (spec_digest sample_algorithms (fun _ => Except.ok []) 18)

/-- A filesystem without a digest function. -/
def ext2 : grub_fs where
  name := "ext2"
  digest := none

/-- A machine with four devices: three partitions of hd0 (squash4, ext2, no
filesystem) and the network device net0.  Fresh heap blocks are filled with
the byte 0xaa; the TPM accepts every measurement. -/
def sample_env : Env where
  grub_strtoul := fun str _ => decimal_value str
  grub_device_open := fun name =>
    if name = "(hd0,msdos1)" then Except.ok { disk := some 1, net := none }
    else if name = "(hd0,msdos2)" then Except.ok { disk := some 2, net := none }
    else if name = "(hd0,msdos3)" then Except.ok { disk := some 3, net := none }
    else if name = "net0" then Except.ok { disk := none, net := some 1 }
    else Except.error (GRUB_ERR_OTHER 12)
  grub_fs_probe := fun dev =>
    if dev.disk = some 1 then some squash4
    else if dev.disk = some 2 then some ext2
    else none
  grub_malloc := fun _ => some fun _ => 0xaa
  grub_tpm_measure := fun _ _ _ _ _ => GRUB_ERR_NONE

/-- The option state with neither `--pcr` nor `--hash` given. -/
def no_options : grub_extcmd_context where
  state := fun _ => { set := 0, arg := "" }

/-- The option state with `--pcr text` given and `--hash` omitted. -/
def pcr_option (text : String) : grub_extcmd_context where
  state := fun i => if i = 0 then { set := 1, arg := text } else { set := 0, arg := "" }

/-- The argument vector holding the single device name `name`. -/
def one_arg (name : String) : Nat → String := fun _ => name

/-! ## The events of the loop -/

theorem hex_loop_events_mem (result : Nat → Nat) (n : Int) (e : Event)
    (h : e ∈ hex_loop_events result n) :
    (∃ j, e = Event.read_result j) ∨ ∃ o v, e = Event.grub_snprintf o 3 "%02x" v := by
  simp only [hex_loop_events, List.mem_flatMap, List.mem_range, List.mem_cons,
    List.mem_singleton, List.not_mem_nil, or_false] at h
  obtain ⟨j, _, rfl | rfl⟩ := h
  · exact Or.inl ⟨j, rfl⟩
  · exact Or.inr ⟨_, _, rfl⟩

theorem closes_hex_loop_events (result : Nat → Nat) (n : Int) :
    closes (hex_loop_events result n) = [] := by
  rw [closes, List.filterMap_eq_nil_iff]
  intro e he
  rcases hex_loop_events_mem result n e he with ⟨j, rfl⟩ | ⟨o, v, rfl⟩ <;> rfl

theorem tpm_calls_hex_loop_events (result : Nat → Nat) (n : Int) :
    tpm_calls (hex_loop_events result n) = [] := by
  rw [tpm_calls, List.filter_eq_nil_iff]
  intro e he
  rcases hex_loop_events_mem result n e he with ⟨j, rfl⟩ | ⟨o, v, rfl⟩ <;> simp

theorem closes_append (s t : List Event) : closes (s ++ t) = closes s ++ closes t := by
  simp [closes]

theorem tpm_calls_append (s t : List Event) :
    tpm_calls (s ++ t) = tpm_calls s ++ tpm_calls t := by
  simp [tpm_calls]

theorem closes_measure_device (env : Env) (dev : grub_device) (name hashalg : String)
    (pcr : Int) : closes (measure_device env dev name hashalg pcr).2 = [] := by
  unfold measure_device
  split
  · rfl
  · split
    · rfl
    · dsimp only
      split
      · split
        · rfl
        · simp only [closes_append, closes_hex_loop_events]
          rfl
      · rfl

/-! ## The paths through the command -/

theorem cmd_no_name (env : Env) (ctxt : grub_extcmd_context) (argc : Int)
    (args : Nat → String) (hargc : ¬ argc > 0) :
    grub_cmd_measurefs env ctxt argc args =
      (GRUB_ERR_BAD_ARGUMENT,
        [Event.grub_error GRUB_ERR_BAD_ARGUMENT "device name expected" []]) := by
  unfold grub_cmd_measurefs
  rw [if_neg hargc]

theorem cmd_open_failed (env : Env) (ctxt : grub_extcmd_context) (argc : Int)
    (args : Nat → String) (errno : grub_err_t) (hargc : argc > 0)
    (hopen : env.grub_device_open (args 0) = Except.error errno) :
    grub_cmd_measurefs env ctxt argc args = (errno, opening_events env ctxt (args 0)) := by
  unfold grub_cmd_measurefs
  rw [if_pos hargc]
  simp only [hopen]
  rfl

theorem cmd_network (env : Env) (ctxt : grub_extcmd_context) (argc : Int)
    (args : Nat → String) (dev : grub_device) (hargc : argc > 0)
    (hopen : env.grub_device_open (args 0) = Except.ok dev)
    (hnet : dev.disk = none ∧ dev.net ≠ none) :
    grub_cmd_measurefs env ctxt argc args =
      (GRUB_ERR_BAD_DEVICE,
        opening_events env ctxt (args 0) ++
          [Event.grub_error GRUB_ERR_BAD_DEVICE "Network devices [`%s'] are not supported"
             [fmt_arg.str (args 0)],
           Event.grub_device_close dev]) := by
  unfold grub_cmd_measurefs
  rw [if_pos hargc]
  simp only [hopen]
  rw [if_pos hnet]
  rfl

theorem cmd_device (env : Env) (ctxt : grub_extcmd_context) (argc : Int)
    (args : Nat → String) (dev : grub_device) (hargc : argc > 0)
    (hopen : env.grub_device_open (args 0) = Except.ok dev)
    (hnet : ¬ (dev.disk = none ∧ dev.net ≠ none)) :
    grub_cmd_measurefs env ctxt argc args =
      ((measure_device env dev (args 0) (hash_name ctxt) (pcr_index env ctxt)).1,
        opening_events env ctxt (args 0) ++
          (measure_device env dev (args 0) (hash_name ctxt) (pcr_index env ctxt)).2 ++
          [Event.grub_device_close dev]) := by
  unfold grub_cmd_measurefs
  rw [if_pos hargc]
  simp only [hopen]
  rw [if_neg hnet]
  rfl

theorem closes_opening_events (env : Env) (ctxt : grub_extcmd_context) (name : String) :
    closes (opening_events env ctxt name) = [] := by
  unfold opening_events
  by_cases hset : (ctxt.state 0).set ≠ 0
  · rw [if_pos hset]; rfl
  · rw [if_neg hset]; rfl

theorem tpm_calls_opening_events (env : Env) (ctxt : grub_extcmd_context) (name : String) :
    tpm_calls (opening_events env ctxt name) = [] := by
  unfold opening_events
  by_cases hset : (ctxt.state 0).set ≠ 0
  · rw [if_pos hset]; rfl
  · rw [if_neg hset]; rfl

theorem measure_no_fs (env : Env) (dev : grub_device) (name hashalg : String) (pcr : Int)
    (hprobe : env.grub_fs_probe dev = none) :
    measure_device env dev name hashalg pcr =
      (GRUB_ERR_BAD_FS,
        [Event.grub_fs_probe dev,
         Event.grub_error GRUB_ERR_BAD_FS "cannot find a filesystem on `%s'"
           [fmt_arg.str name]]) := by
  unfold measure_device
  simp only [hprobe]

theorem measure_no_digest (env : Env) (dev : grub_device) (name hashalg : String) (pcr : Int)
    (fs : grub_fs) (hprobe : env.grub_fs_probe dev = some fs) (hdigest : fs.digest = none) :
    measure_device env dev name hashalg pcr =
      (GRUB_ERR_NONE,
        [Event.grub_fs_probe dev,
         Event.grub_dprintf "measurefs" "FS: %s\n" [fmt_arg.str fs.name],
         Event.grub_printf "measurefs: FS %s doesn't support digest()\n"
           [fmt_arg.str fs.name]]) := by
  unfold measure_device
  simp only [hprobe, hdigest]
  rfl

theorem measure_digest_failed (env : Env) (dev : grub_device) (name hashalg : String)
    (pcr : Int) (fs : grub_fs) (digest : grub_device → String → digest_outcome)
    (hprobe : env.grub_fs_probe dev = some fs) (hdigest : fs.digest = some digest)
    (herr : (digest dev hashalg).err ≠ GRUB_ERR_NONE) :
    measure_device env dev name hashalg pcr =
      ((digest dev hashalg).err,
        [Event.grub_fs_probe dev,
         Event.grub_dprintf "measurefs" "FS: %s\n" [fmt_arg.str fs.name],
         Event.digest dev hashalg]) := by
  unfold measure_device
  simp only [hprobe, hdigest]
  rw [if_neg herr]
  rfl

theorem measure_no_memory (env : Env) (dev : grub_device) (name hashalg : String)
    (pcr : Int) (fs : grub_fs) (digest : grub_device → String → digest_outcome)
    (hprobe : env.grub_fs_probe dev = some fs) (hdigest : fs.digest = some digest)
    (herr : (digest dev hashalg).err = GRUB_ERR_NONE)
    (hmalloc : env.grub_malloc (to_int ((digest dev hashalg).result_len * 2 + 1)) = none) :
    measure_device env dev name hashalg pcr =
      (GRUB_ERR_OUT_OF_MEMORY,
        [Event.grub_fs_probe dev,
         Event.grub_dprintf "measurefs" "FS: %s\n" [fmt_arg.str fs.name],
         Event.digest dev hashalg,
         Event.grub_malloc (to_int ((digest dev hashalg).result_len * 2 + 1))]) := by
  unfold measure_device
  simp only [hprobe, hdigest]
  rw [if_pos herr]
  simp only [hmalloc]
  rfl

theorem measure_extended (env : Env) (dev : grub_device) (name hashalg : String)
    (pcr : Int) (fs : grub_fs) (digest : grub_device → String → digest_outcome)
    (initial : Nat → Nat)
    (hprobe : env.grub_fs_probe dev = some fs) (hdigest : fs.digest = some digest)
    (herr : (digest dev hashalg).err = GRUB_ERR_NONE)
    (hmalloc : env.grub_malloc (to_int ((digest dev hashalg).result_len * 2 + 1)) =
      some initial) :
    measure_device env dev name hashalg pcr =
      (env.grub_tpm_measure
          (digest_bytes (digest dev hashalg).result (digest dev hashalg).result_len)
          (digest dev hashalg).result_len pcr fs.name
          (hex_loop (digest dev hashalg).result (digest dev hashalg).result_len
            (fresh_block (to_int ((digest dev hashalg).result_len * 2 + 1)) initial)),
        [Event.grub_fs_probe dev,
         Event.grub_dprintf "measurefs" "FS: %s\n" [fmt_arg.str fs.name],
         Event.digest dev hashalg,
         Event.grub_malloc (to_int ((digest dev hashalg).result_len * 2 + 1))] ++
        hex_loop_events (digest dev hashalg).result (digest dev hashalg).result_len ++
        [Event.grub_tpm_measure
           (digest_bytes (digest dev hashalg).result (digest dev hashalg).result_len)
           (digest dev hashalg).result_len pcr fs.name
           (hex_loop (digest dev hashalg).result (digest dev hashalg).result_len
             (fresh_block (to_int ((digest dev hashalg).result_len * 2 + 1)) initial)),
         Event.grub_free]) := by
  unfold measure_device
  simp only [hprobe, hdigest]
  rw [if_pos herr]
  simp only [hmalloc]
  rfl

/-- C1. Over every argument list, option state and outcome of the
collaborators, the devices handed to grub_device_close are exactly: the
device grub_device_open returned, once, when a name was given and the open
returned a device; none when the command fails before acquisition (no device
name, or grub_device_open returned no device). -/
theorem close_exactly_once_iff_acquired (env : Env) (ctxt : grub_extcmd_context)
    (argc : Int) (args : Nat → String) :
    closes (grub_cmd_measurefs env ctxt argc args).2 =
      if argc > 0 then
        match env.grub_device_open (args 0) with
        | Except.ok dev => [dev]
        | Except.error _ => []
      else [] := by
  by_cases hargc : argc > 0
  · rw [if_pos hargc]
    cases hopen : env.grub_device_open (args 0) with
    | error errno =>
      rw [cmd_open_failed env ctxt argc args errno hargc hopen]
      exact closes_opening_events env ctxt (args 0)
    | ok dev =>
      by_cases hnet : dev.disk = none ∧ dev.net ≠ none
      · rw [cmd_network env ctxt argc args dev hargc hopen hnet]
        simp only [closes_append, closes_opening_events]
        rfl
      · rw [cmd_device env ctxt argc args dev hargc hopen hnet]
        simp only [closes_append, closes_opening_events, closes_measure_device]
        rfl
  · rw [if_neg hargc, cmd_no_name env ctxt argc args hargc]
    rfl

/-- C2. Over every invocation, grub_tpm_measure is called at most once, and
it is called exactly when every earlier stage succeeded: a device name was
given, grub_device_open returned a device, the device is not network-only,
grub_fs_probe found a filesystem, the filesystem has a digest function, the
digest call returned GRUB_ERR_NONE, and grub_malloc returned a block. -/
theorem tpm_measure_iff_all_stages (env : Env) (ctxt : grub_extcmd_context)
    (argc : Int) (args : Nat → String) :
    (tpm_calls (grub_cmd_measurefs env ctxt argc args).2).length ≤ 1 ∧
    ((tpm_calls (grub_cmd_measurefs env ctxt argc args).2).length = 1 ↔
      argc > 0 ∧ ∃ dev, env.grub_device_open (args 0) = Except.ok dev ∧
        ¬ (dev.disk = none ∧ dev.net ≠ none) ∧
        ∃ fs, env.grub_fs_probe dev = some fs ∧
        ∃ digest, fs.digest = some digest ∧
          (digest dev (hash_name ctxt)).err = GRUB_ERR_NONE ∧
          (env.grub_malloc
            (to_int ((digest dev (hash_name ctxt)).result_len * 2 + 1))).isSome = true) := by
  by_cases hargc : argc > 0
  swap
  · rw [cmd_no_name env ctxt argc args hargc]
    refine ⟨by simp [tpm_calls], ?_⟩
    constructor
    · intro h; simp [tpm_calls] at h
    · rintro ⟨h, _⟩; exact absurd h hargc
  cases hopen : env.grub_device_open (args 0) with
  | error errno =>
    rw [cmd_open_failed env ctxt argc args errno hargc hopen]
    simp only [tpm_calls_opening_events]
    refine ⟨by simp, ?_⟩
    constructor
    · intro h; simp at h
    · rintro ⟨_, dev, h, _⟩; cases h
  | ok dev =>
    by_cases hnet : dev.disk = none ∧ dev.net ≠ none
    · rw [cmd_network env ctxt argc args dev hargc hopen hnet]
      simp only [tpm_calls_append, tpm_calls_opening_events]
      refine ⟨by simp [tpm_calls], ?_⟩
      constructor
      · intro h; simp [tpm_calls] at h
      · rintro ⟨_, dev2, h, hn, _⟩
        cases h
        exact absurd hnet hn
    rw [cmd_device env ctxt argc args dev hargc hopen hnet]
    cases hprobe : env.grub_fs_probe dev with
    | none =>
      rw [measure_no_fs env dev _ _ _ hprobe]
      simp only [tpm_calls_append, tpm_calls_opening_events]
      refine ⟨by simp [tpm_calls], ?_⟩
      constructor
      · intro h; simp [tpm_calls] at h
      · rintro ⟨_, dev2, h, _, fs, hp, _⟩
        cases h
        rw [hprobe] at hp
        cases hp
    | some fs =>
      cases hdigest : fs.digest with
      | none =>
        rw [measure_no_digest env dev _ _ _ fs hprobe hdigest]
        simp only [tpm_calls_append, tpm_calls_opening_events]
        refine ⟨by simp [tpm_calls], ?_⟩
        constructor
        · intro h; simp [tpm_calls] at h
        · rintro ⟨_, dev2, h, _, fs2, hp, d, hd, _⟩
          cases h
          rw [hprobe] at hp
          cases hp
          rw [hdigest] at hd
          cases hd
      | some digest =>
        by_cases herr : (digest dev (hash_name ctxt)).err = GRUB_ERR_NONE
        swap
        · rw [measure_digest_failed env dev _ _ _ fs digest hprobe hdigest herr]
          simp only [tpm_calls_append, tpm_calls_opening_events]
          refine ⟨by simp [tpm_calls], ?_⟩
          constructor
          · intro h; simp [tpm_calls] at h
          · rintro ⟨_, dev2, h, _, fs2, hp, d, hd, he, _⟩
            cases h
            rw [hprobe] at hp
            cases hp
            rw [hdigest] at hd
            cases hd
            exact absurd he herr
        cases hmalloc : env.grub_malloc
            (to_int ((digest dev (hash_name ctxt)).result_len * 2 + 1)) with
        | none =>
          rw [measure_no_memory env dev _ _ _ fs digest hprobe hdigest herr hmalloc]
          simp only [tpm_calls_append, tpm_calls_opening_events]
          refine ⟨by simp [tpm_calls], ?_⟩
          constructor
          · intro h; simp [tpm_calls] at h
          · rintro ⟨_, dev2, h, _, fs2, hp, d, hd, _, hm⟩
            cases h
            rw [hprobe] at hp
            cases hp
            rw [hdigest] at hd
            cases hd
            rw [hmalloc] at hm
            cases hm
        | some initial =>
          rw [measure_extended env dev _ _ _ fs digest initial hprobe hdigest herr hmalloc]
          simp only [tpm_calls_append, tpm_calls_opening_events, tpm_calls_hex_loop_events]
          refine ⟨by simp [tpm_calls], ?_⟩
          constructor
          · intro _
            exact ⟨hargc, dev, rfl, hnet, fs, hprobe, digest, hdigest, herr, by rw [hmalloc]; rfl⟩
          · intro _; simp [tpm_calls]

/-! ## What the hex-encoding loop leaves in the block -/

theorem to_int_of_small (x : Int) (h0 : 0 ≤ x) (h1 : x < 2147483648) : to_int x = x := by
  unfold to_int
  omega

theorem fmt_02x_byte (v : Nat) (hv : v < 256) :
    fmt_02x v = [hex_digit (v / 16), hex_digit (v % 16)] := by
  interval_cases v <;> rfl

theorem poke_cons (x : Nat) (bs block : List Nat) (i : Nat) :
    poke (x :: block) (i + 1) bs = x :: poke block i bs := by
  induction bs generalizing block i with
  | nil => rfl
  | cons b bs ih =>
    simp only [poke, List.set_cons_succ]
    exact ih (block.set i b) (i + 1)

theorem poke_three (pre rest : List Nat) (t0 t1 t2 a b c : Nat) :
    poke (pre ++ t0 :: t1 :: t2 :: rest) pre.length [a, b, c] = pre ++ a :: b :: c :: rest := by
  induction pre with
  | nil => rfl
  | cons x pre ih =>
    simp only [List.cons_append, List.length_cons]
    rw [poke_cons, ih]

theorem hex_encode_length (b : List Nat) : (hex_encode b).length = 2 * b.length := by
  induction b with
  | nil => rfl
  | cons x b ih =>
    simp only [hex_encode, List.flatMap_cons, List.length_append, List.length_cons,
      List.length_nil] at ih ⊢
    omega

theorem hex_encode_append (b c : List Nat) :
    hex_encode (b ++ c) = hex_encode b ++ hex_encode c := by
  simp [hex_encode, List.flatMap_append]

theorem hex_step_eq (result : Nat → Nat) (pre rest : List Nat) (t0 t1 t2 : Nat) (j : Nat)
    (hj : j < 1073741824) (hpre : pre.length = 2 * j) :
    hex_step result (pre ++ t0 :: t1 :: t2 :: rest) j =
      pre ++ hex_digit (result_byte result j / 16) :: hex_digit (result_byte result j % 16)
        :: 0 :: rest := by
  have hb : result_byte result j < 256 := Nat.mod_lt _ (by decide)
  have hoff : to_int ((j : Int) * 2) = ((2 * j : Nat) : Int) := by
    rw [to_int_of_small] <;> omega
  unfold hex_step grub_snprintf
  rw [hoff, fmt_02x_byte _ hb]
  have h3 : ¬ (3 = 0) := by decide
  have hneg : ¬ (((2 * j : Nat) : Int) < 0) := by omega
  rw [if_neg h3, if_neg hneg, Int.toNat_ofNat, ← hpre]
  exact poke_three pre rest t0 t1 t2 _ _ _

theorem hex_loop_prefix (result : Nat → Nat) (L : Nat) (hL : L < 1073741824)
    (block : List Nat) (hlen : block.length = 2 * L + 1) (k : Nat) (hk : k ≤ L) :
    ∃ tail, (List.range k).foldl (hex_step result) block =
        hex_encode ((List.range k).map (result_byte result)) ++ tail ∧
      tail.length = 2 * (L - k) + 1 ∧ (0 < k → tail.head? = some 0) := by
  induction k with
  | zero => exact ⟨block, rfl, by simpa using hlen, fun h => absurd h (by decide)⟩
  | succ k ih =>
    obtain ⟨tail, heq, htl, _⟩ := ih (by omega)
    match tail, htl with
    | t0 :: t1 :: t2 :: rest, htl =>
      refine ⟨0 :: rest, ?_, ?_, fun _ => rfl⟩
      · rw [List.range_succ, List.foldl_append, List.foldl_cons, List.foldl_nil, heq,
          hex_step_eq result _ rest t0 t1 t2 k (by omega)
            (by rw [hex_encode_length, List.length_map, List.length_range]),
          List.map_append, hex_encode_append]
        simp [hex_encode]
      · simp only [List.length_cons] at htl ⊢
        omega
    | [], htl => simp at htl
    | [_], htl => simp only [List.length_cons, List.length_nil] at htl; omega
    | [_, _], htl => simp only [List.length_cons, List.length_nil] at htl; omega

theorem hex_loop_fresh (result : Nat → Nat) (initial : Nat → Nat) (L : Nat) (h0 : 0 < L)
    (hL : L < 1073741824) :
    hex_loop result (L : Int) (fresh_block (to_int ((L : Int) * 2 + 1)) initial) =
      hex_encode (digest_bytes result (L : Int)) ++ [0] := by
  have hsize : to_int ((L : Int) * 2 + 1) = ((2 * L + 1 : Nat) : Int) := by
    rw [to_int_of_small] <;> omega
  have hlen : (fresh_block (to_int ((L : Int) * 2 + 1)) initial).length = 2 * L + 1 := by
    rw [hsize, fresh_block, Int.toNat_ofNat, List.length_map, List.length_range]
  obtain ⟨tail, heq, htl, hhead⟩ := hex_loop_prefix result L hL _ hlen L (le_refl L)
  unfold hex_loop digest_bytes
  rw [Int.toNat_ofNat, heq]
  match tail, htl, hhead h0 with
  | [t], _, hh =>
    simp only [List.head?_cons, Option.some.injEq] at hh
    rw [hh]
  | [], htl, _ => simp at htl
  | _ :: _ :: _, htl, _ => simp only [List.length_cons] at htl; omega

theorem hex_digit_range (n : Nat) (hn : n < 16) :
    (48 ≤ hex_digit n ∧ hex_digit n ≤ 57) ∨ (97 ≤ hex_digit n ∧ hex_digit n ≤ 102) := by
  unfold hex_digit
  split <;> omega

theorem hex_value_hex_digit (n : Nat) (hn : n < 16) : hex_value (hex_digit n) = some n := by
  interval_cases n <;> rfl

theorem hex_encode_chars (b : List Nat) (hbytes : ∀ x ∈ b, x < 256) (c : Nat)
    (hc : c ∈ hex_encode b) : (48 ≤ c ∧ c ≤ 57) ∨ (97 ≤ c ∧ c ≤ 102) := by
  simp only [hex_encode, List.mem_flatMap, List.mem_cons, List.mem_singleton,
    List.not_mem_nil, or_false] at hc
  obtain ⟨x, hx, rfl | rfl⟩ := hc
  · exact hex_digit_range _ (by have := hbytes x hx; omega)
  · exact hex_digit_range _ (by omega)

theorem hex_encode_get (b : List Nat) (j : Nat) (hj : j < b.length) :
    (hex_encode b)[2 * j]? = some (hex_digit (b.getD j 0 / 16)) ∧
    (hex_encode b)[2 * j + 1]? = some (hex_digit (b.getD j 0 % 16)) := by
  induction b generalizing j with
  | nil => simp at hj
  | cons x b ih =>
    cases j with
    | zero => simp [hex_encode]
    | succ j =>
      have h := ih j (by simpa using hj)
      have e1 : 2 * (j + 1) = (2 * j) + 1 + 1 := by omega
      rw [e1]
      simpa [hex_encode] using h

theorem hex_decode_encode (b : List Nat) (hbytes : ∀ x ∈ b, x < 256) :
    hex_decode (hex_encode b) = some b := by
  induction b with
  | nil => rfl
  | cons x b ih =>
    have hx : x < 256 := hbytes x (List.mem_cons_self x b)
    have ih2 := ih (fun y hy => hbytes y (List.mem_cons_of_mem x hy))
    have e : hex_encode (x :: b) = hex_digit (x / 16) :: hex_digit (x % 16) :: hex_encode b := by
      simp [hex_encode]
    rw [e, hex_decode, hex_value_hex_digit _ (by omega), hex_value_hex_digit _ (by omega), ih2]
    simp only [Option.some.injEq, List.cons.injEq, and_true]
    omega

theorem c_string_terminated (s : List Nat) (hs : ∀ c ∈ s, c ≠ 0) :
    c_string (s ++ [0]) = some s := by
  unfold c_string
  rw [if_pos (by simp)]
  congr 1
  induction s with
  | nil => simp
  | cons c s ih =>
    have hc : c ≠ 0 := hs c (List.mem_cons_self c s)
    rw [List.cons_append, List.takeWhile_cons_of_pos (by simpa using hc),
      ih (fun d hd => hs d (List.mem_cons_of_mem c hd))]

theorem c_string_hex_encode (b : List Nat) (hbytes : ∀ x ∈ b, x < 256) :
    c_string (hex_encode b ++ [0]) = some (hex_encode b) := by
  apply c_string_terminated
  intro c hc
  have := hex_encode_chars b hbytes c hc
  omega

theorem digest_bytes_of_list (b : List Nat) (hbytes : ∀ x ∈ b, x < 256) :
    digest_bytes (fun j => b.getD j 0) (b.length : Int) = b := by
  unfold digest_bytes
  rw [Int.toNat_ofNat]
  apply List.ext_getElem
  · simp
  · intro i h1 h2
    have hi : b[i] < 256 := hbytes _ (List.getElem_mem h2)
    simp only [List.getElem_map, List.getElem_range, result_byte, List.getD_eq_getElem?_getD,
      List.getElem?_eq_getElem h2, Option.getD_some]
    exact Nat.mod_eq_of_lt hi

/-- C4. For every byte sequence b of length L with 0 < L ≤ 64 held in the
digest buffer, the loop, run over a fresh block of 2L+1 bytes with any
initial contents, leaves a block of 2L+1 bytes whose byte 2L is zero and
whose C string s has length exactly 2L, consists only of the characters
0-9 and a-f, renders byte j as the characters 2j (most significant nibble)
and 2j+1 (least significant nibble), and decodes as hexadecimal back to b. -/
theorem hex_loop_round_trip (b : List Nat) (initial : Nat → Nat)
    (hbytes : ∀ x ∈ b, x < 256) (h0 : 0 < b.length)
    (h64 : b.length ≤ GRUB_CRYPTO_MAX_MDLEN) :
    ∃ s,
      c_string (hex_loop (fun j => b.getD j 0) (b.length : Int)
        (fresh_block (to_int ((b.length : Int) * 2 + 1)) initial)) = some s ∧
      (hex_loop (fun j => b.getD j 0) (b.length : Int)
        (fresh_block (to_int ((b.length : Int) * 2 + 1)) initial)).length = 2 * b.length + 1 ∧
      (hex_loop (fun j => b.getD j 0) (b.length : Int)
        (fresh_block (to_int ((b.length : Int) * 2 + 1)) initial))[2 * b.length]? = some 0 ∧
      s.length = 2 * b.length ∧
      (∀ c ∈ s, (48 ≤ c ∧ c ≤ 57) ∨ (97 ≤ c ∧ c ≤ 102)) ∧
      (∀ j, j < b.length →
        s[2 * j]? = some (hex_digit (b.getD j 0 / 16)) ∧
        s[2 * j + 1]? = some (hex_digit (b.getD j 0 % 16))) ∧
      hex_decode s = some b := by
  have hL : b.length < 1073741824 := by
    unfold GRUB_CRYPTO_MAX_MDLEN at h64
    omega
  rw [hex_loop_fresh _ initial b.length h0 hL, digest_bytes_of_list b hbytes]
  refine ⟨hex_encode b, c_string_hex_encode b hbytes, ?_, ?_, hex_encode_length b,
    hex_encode_chars b hbytes, hex_encode_get b, hex_decode_encode b hbytes⟩
  · rw [List.length_append, hex_encode_length]
    rfl
  · rw [List.getElem?_append_right (by rw [hex_encode_length]), hex_encode_length]
    simp

/-! ## The failure paths and the skipped digest -/

/-- C8. With no positional argument (argc = 0), whatever the option state and
the collaborators, the command returns GRUB_ERR_BAD_ARGUMENT and calls neither
grub_device_open nor close, probe, digest or grub_tpm_measure. -/
theorem no_name_is_bad_argument (env : Env) (ctxt : grub_extcmd_context)
    (args : Nat → String) :
    (grub_cmd_measurefs env ctxt 0 args).1 = GRUB_ERR_BAD_ARGUMENT ∧
    opens (grub_cmd_measurefs env ctxt 0 args).2 = 0 ∧
    closes (grub_cmd_measurefs env ctxt 0 args).2 = [] ∧
    probes (grub_cmd_measurefs env ctxt 0 args).2 = 0 ∧
    digests (grub_cmd_measurefs env ctxt 0 args).2 = 0 ∧
    tpm_calls (grub_cmd_measurefs env ctxt 0 args).2 = [] := by
  rw [cmd_no_name env ctxt 0 args (by decide)]
  simp [opens, closes, probes, digests, tpm_calls]

/-- C6. When the opened device has no disk backend and has a network backend,
the command returns GRUB_ERR_BAD_DEVICE, calls neither grub_fs_probe nor a
digest function nor grub_tpm_measure, and closes the device exactly once. -/
theorem network_device_rejected (env : Env) (ctxt : grub_extcmd_context) (argc : Int)
    (args : Nat → String) (dev : grub_device) (hargc : argc > 0)
    (hopen : env.grub_device_open (args 0) = Except.ok dev)
    (hdisk : dev.disk = none) (hnetdev : dev.net ≠ none) :
    (grub_cmd_measurefs env ctxt argc args).1 = GRUB_ERR_BAD_DEVICE ∧
    probes (grub_cmd_measurefs env ctxt argc args).2 = 0 ∧
    digests (grub_cmd_measurefs env ctxt argc args).2 = 0 ∧
    tpm_calls (grub_cmd_measurefs env ctxt argc args).2 = [] ∧
    closes (grub_cmd_measurefs env ctxt argc args).2 = [dev] := by
  rw [cmd_network env ctxt argc args dev hargc hopen ⟨hdisk, hnetdev⟩]
  by_cases hset : (ctxt.state 0).set ≠ 0 <;>
    simp [opening_events, hset, probes, digests, tpm_calls, closes]

/-- C7. When the device opens, is not rejected as network-only, and
grub_fs_probe detects no filesystem, the command returns GRUB_ERR_BAD_FS,
calls neither a digest function nor grub_tpm_measure, and closes the device
exactly once. -/
theorem no_filesystem_is_bad_fs (env : Env) (ctxt : grub_extcmd_context) (argc : Int)
    (args : Nat → String) (dev : grub_device) (hargc : argc > 0)
    (hopen : env.grub_device_open (args 0) = Except.ok dev)
    (hnet : ¬ (dev.disk = none ∧ dev.net ≠ none))
    (hprobe : env.grub_fs_probe dev = none) :
    (grub_cmd_measurefs env ctxt argc args).1 = GRUB_ERR_BAD_FS ∧
    digests (grub_cmd_measurefs env ctxt argc args).2 = 0 ∧
    tpm_calls (grub_cmd_measurefs env ctxt argc args).2 = [] ∧
    closes (grub_cmd_measurefs env ctxt argc args).2 = [dev] := by
  rw [cmd_device env ctxt argc args dev hargc hopen hnet, measure_no_fs env dev _ _ _ hprobe]
  by_cases hset : (ctxt.state 0).set ≠ 0 <;>
    simp [opening_events, hset, digests, tpm_calls, closes]

/-- C5. When the device opens, is not network-only, and a filesystem is
detected whose digest function pointer is null, the command returns
GRUB_ERR_NONE, prints the line naming the filesystem, requests no hex buffer,
never calls grub_tpm_measure, and closes the device exactly once. -/
theorem no_digest_is_success (env : Env) (ctxt : grub_extcmd_context) (argc : Int)
    (args : Nat → String) (dev : grub_device) (fs : grub_fs) (hargc : argc > 0)
    (hopen : env.grub_device_open (args 0) = Except.ok dev)
    (hnet : ¬ (dev.disk = none ∧ dev.net ≠ none))
    (hprobe : env.grub_fs_probe dev = some fs) (hdigest : fs.digest = none) :
    (grub_cmd_measurefs env ctxt argc args).1 = GRUB_ERR_NONE ∧
    Event.grub_printf "measurefs: FS %s doesn't support digest()\n" [fmt_arg.str fs.name] ∈
      (grub_cmd_measurefs env ctxt argc args).2 ∧
    mallocs (grub_cmd_measurefs env ctxt argc args).2 = [] ∧
    tpm_calls (grub_cmd_measurefs env ctxt argc args).2 = [] ∧
    closes (grub_cmd_measurefs env ctxt argc args).2 = [dev] := by
  rw [cmd_device env ctxt argc args dev hargc hopen hnet,
    measure_no_digest env dev _ _ _ fs hprobe hdigest]
  by_cases hset : (ctxt.state 0).set ≠ 0 <;>
    simp [opening_events, hset, mallocs, tpm_calls, closes]

/-- Scenario C: the network device net0 of sample_env is rejected. -/
theorem network_device_rejected_witness :
    (grub_cmd_measurefs sample_env no_options 1 (one_arg "net0")).1 = GRUB_ERR_BAD_DEVICE ∧
    probes (grub_cmd_measurefs sample_env no_options 1 (one_arg "net0")).2 = 0 ∧
    digests (grub_cmd_measurefs sample_env no_options 1 (one_arg "net0")).2 = 0 ∧
    tpm_calls (grub_cmd_measurefs sample_env no_options 1 (one_arg "net0")).2 = [] ∧
    closes (grub_cmd_measurefs sample_env no_options 1 (one_arg "net0")).2 =
      [{ disk := none, net := some 1 }] :=
  network_device_rejected sample_env no_options 1 (one_arg "net0") { disk := none, net := some 1 }
    (by decide) rfl rfl (by decide)

/-- Scenario D: the partition (hd0,msdos3) of sample_env holds no filesystem. -/
theorem no_filesystem_is_bad_fs_witness :
    (grub_cmd_measurefs sample_env no_options 1 (one_arg "(hd0,msdos3)")).1 = GRUB_ERR_BAD_FS ∧
    digests (grub_cmd_measurefs sample_env no_options 1 (one_arg "(hd0,msdos3)")).2 = 0 ∧
    tpm_calls (grub_cmd_measurefs sample_env no_options 1 (one_arg "(hd0,msdos3)")).2 = [] ∧
    closes (grub_cmd_measurefs sample_env no_options 1 (one_arg "(hd0,msdos3)")).2 =
      [{ disk := some 3, net := none }] :=
  no_filesystem_is_bad_fs sample_env no_options 1 (one_arg "(hd0,msdos3)")
    { disk := some 3, net := none } (by decide) rfl (by decide) rfl

/-- Scenario E: the ext2 filesystem on (hd0,msdos2) has no digest function. -/
theorem no_digest_is_success_witness :
    (grub_cmd_measurefs sample_env no_options 1 (one_arg "(hd0,msdos2)")).1 = GRUB_ERR_NONE ∧
    Event.grub_printf "measurefs: FS %s doesn't support digest()\n" [fmt_arg.str "ext2"] ∈
      (grub_cmd_measurefs sample_env no_options 1 (one_arg "(hd0,msdos2)")).2 ∧
    mallocs (grub_cmd_measurefs sample_env no_options 1 (one_arg "(hd0,msdos2)")).2 = [] ∧
    tpm_calls (grub_cmd_measurefs sample_env no_options 1 (one_arg "(hd0,msdos2)")).2 = [] ∧
    closes (grub_cmd_measurefs sample_env no_options 1 (one_arg "(hd0,msdos2)")).2 =
      [{ disk := some 2, net := none }] :=
  no_digest_is_success sample_env no_options 1 (one_arg "(hd0,msdos2)")
    { disk := some 2, net := none } ext2 (by decide) rfl (by decide) rfl rfl

/-- The loop run over the 32 bytes of sample_digest and a block filled with 0xaa. -/
theorem hex_loop_round_trip_witness :
    ∃ s,
      c_string (hex_loop (fun j => sample_digest.getD j 0) (sample_digest.length : Int)
        (fresh_block (to_int ((sample_digest.length : Int) * 2 + 1)) (fun _ => 0xaa))) = some s ∧
      (hex_loop (fun j => sample_digest.getD j 0) (sample_digest.length : Int)
        (fresh_block (to_int ((sample_digest.length : Int) * 2 + 1)) (fun _ => 0xaa))).length =
          2 * sample_digest.length + 1 ∧
      (hex_loop (fun j => sample_digest.getD j 0) (sample_digest.length : Int)
        (fresh_block (to_int ((sample_digest.length : Int) * 2 + 1))
          (fun _ => 0xaa)))[2 * sample_digest.length]? = some 0 ∧
      s.length = 2 * sample_digest.length ∧
      (∀ c ∈ s, (48 ≤ c ∧ c ≤ 57) ∨ (97 ≤ c ∧ c ≤ 102)) ∧
      (∀ j, j < sample_digest.length →
        s[2 * j]? = some (hex_digit (sample_digest.getD j 0 / 16)) ∧
        s[2 * j + 1]? = some (hex_digit (sample_digest.getD j 0 % 16))) ∧
      hex_decode s = some sample_digest :=
  hex_loop_round_trip sample_digest (fun _ => 0xaa) (by decide) (by decide) (by decide)

/-! ## The arguments of the TPM call -/

theorem mallocs_hex_loop_events (result : Nat → Nat) (n : Int) :
    mallocs (hex_loop_events result n) = [] := by
  rw [mallocs, List.filterMap_eq_nil_iff]
  intro e he
  rcases hex_loop_events_mem result n e he with ⟨j, rfl⟩ | ⟨o, v, rfl⟩ <;> rfl

theorem result_reads_flatMap (result : Nat → Nat) (l : List Nat) :
    result_reads (l.flatMap fun (j : Nat) =>
      [Event.read_result j,
       Event.grub_snprintf (to_int ((j : Int) * 2)) 3 "%02x" (result_byte result j)]) = l := by
  induction l with
  | nil => rfl
  | cons j l ih =>
    rw [result_reads] at ih ⊢
    rw [List.flatMap_cons, List.filterMap_append, ih]
    rfl

theorem result_reads_hex_loop_events (result : Nat → Nat) (n : Int) :
    result_reads (hex_loop_events result n) = List.range n.toNat :=
  result_reads_flatMap result (List.range n.toNat)

theorem pcr_index_option (env : Env) (ctxt : grub_extcmd_context)
    (hset : (ctxt.state 0).set ≠ 0) :
    pcr_index env ctxt = to_int (env.grub_strtoul (ctxt.state 0).arg 10) := by
  unfold pcr_index
  rw [if_pos hset]

theorem tpm_calls_shape (env : Env) (ctxt : grub_extcmd_context) (argc : Int)
    (args : Nat → String) :
    tpm_calls (grub_cmd_measurefs env ctxt argc args).2 = [] ∨
    ∃ buf size kind description,
      tpm_calls (grub_cmd_measurefs env ctxt argc args).2 =
        [Event.grub_tpm_measure buf size (pcr_index env ctxt) kind description] := by
  by_cases hargc : argc > 0
  swap
  · rw [cmd_no_name env ctxt argc args hargc]
    exact Or.inl rfl
  cases hopen : env.grub_device_open (args 0) with
  | error errno =>
    rw [cmd_open_failed env ctxt argc args errno hargc hopen]
    exact Or.inl (tpm_calls_opening_events env ctxt (args 0))
  | ok dev =>
    by_cases hnet : dev.disk = none ∧ dev.net ≠ none
    · rw [cmd_network env ctxt argc args dev hargc hopen hnet]
      simp only [tpm_calls_append, tpm_calls_opening_events]
      exact Or.inl rfl
    rw [cmd_device env ctxt argc args dev hargc hopen hnet]
    simp only [tpm_calls_append, tpm_calls_opening_events]
    cases hprobe : env.grub_fs_probe dev with
    | none =>
      rw [measure_no_fs env dev _ _ _ hprobe]
      exact Or.inl rfl
    | some fs =>
      cases hdigest : fs.digest with
      | none =>
        rw [measure_no_digest env dev _ _ _ fs hprobe hdigest]
        exact Or.inl rfl
      | some digest =>
        by_cases herr : (digest dev (hash_name ctxt)).err = GRUB_ERR_NONE
        swap
        · rw [measure_digest_failed env dev _ _ _ fs digest hprobe hdigest herr]
          exact Or.inl rfl
        cases hmalloc : env.grub_malloc
            (to_int ((digest dev (hash_name ctxt)).result_len * 2 + 1)) with
        | none =>
          rw [measure_no_memory env dev _ _ _ fs digest hprobe hdigest herr hmalloc]
          exact Or.inl rfl
        | some initial =>
          rw [measure_extended env dev _ _ _ fs digest initial hprobe hdigest herr hmalloc]
          simp only [tpm_calls_append, tpm_calls_hex_loop_events]
          exact Or.inr ⟨_, _, _, _, rfl⟩

/-- C9, as amended. When the TPM extend step is reached with --pcr given and
grub_strtoul returns N for its text, with N < 2^31, grub_tpm_measure is
called once and receives PCR index N, which is not negative. -/
theorem tpm_measure_pcr_option (env : Env) (ctxt : grub_extcmd_context)
    (argc : Int) (args : Nat → String) (N : Nat)
    (hset : (ctxt.state 0).set ≠ 0)
    (hparse : env.grub_strtoul (ctxt.state 0).arg 10 = N)
    (hN : N < 2147483648)
    (hreach : tpm_calls (grub_cmd_measurefs env ctxt argc args).2 ≠ []) :
    ∃ buf size pcr kind description,
      tpm_calls (grub_cmd_measurefs env ctxt argc args).2 =
        [Event.grub_tpm_measure buf size pcr kind description] ∧
      pcr = (N : Int) ∧ 0 ≤ pcr := by
  rcases tpm_calls_shape env ctxt argc args with h | ⟨buf, size, kind, description, h⟩
  · exact absurd h hreach
  · refine ⟨buf, size, (N : Int), kind, description, ?_, rfl, Int.natCast_nonneg N⟩
    rw [h, pcr_index_option env ctxt hset, hparse, to_int_of_small _ (Int.natCast_nonneg N)
      (by omega)]

/-! ## The digest length -/

theorem trace_after_digest (env : Env) (ctxt : grub_extcmd_context)
    (argc : Int) (args : Nat → String) (dev : grub_device) (fs : grub_fs)
    (digest : grub_device → String → digest_outcome)
    (hargc : argc > 0)
    (hopen : env.grub_device_open (args 0) = Except.ok dev)
    (hnet : ¬ (dev.disk = none ∧ dev.net ≠ none))
    (hprobe : env.grub_fs_probe dev = some fs) (hdigest : fs.digest = some digest)
    (herr : (digest dev (hash_name ctxt)).err = GRUB_ERR_NONE) :
    mallocs (grub_cmd_measurefs env ctxt argc args).2 =
      [to_int ((digest dev (hash_name ctxt)).result_len * 2 + 1)] ∧
    result_reads (grub_cmd_measurefs env ctxt argc args).2 =
      (match env.grub_malloc (to_int ((digest dev (hash_name ctxt)).result_len * 2 + 1)) with
       | none => []
       | some _ => List.range (digest dev (hash_name ctxt)).result_len.toNat) ∧
    tpm_calls (grub_cmd_measurefs env ctxt argc args).2 =
      (match env.grub_malloc (to_int ((digest dev (hash_name ctxt)).result_len * 2 + 1)) with
       | none => []
       | some initial =>
         [Event.grub_tpm_measure
           (digest_bytes (digest dev (hash_name ctxt)).result
             (digest dev (hash_name ctxt)).result_len)
           (digest dev (hash_name ctxt)).result_len (pcr_index env ctxt) fs.name
           (hex_loop (digest dev (hash_name ctxt)).result
             (digest dev (hash_name ctxt)).result_len
             (fresh_block (to_int ((digest dev (hash_name ctxt)).result_len * 2 + 1))
               initial))]) := by
  have hm : ∀ s t : List Event, mallocs (s ++ t) = mallocs s ++ mallocs t := by
    intro s t; simp [mallocs]
  have hr : ∀ s t : List Event, result_reads (s ++ t) = result_reads s ++ result_reads t := by
    intro s t; simp [result_reads]
  have hmo : mallocs (opening_events env ctxt (args 0)) = [] := by
    by_cases hset : (ctxt.state 0).set ≠ 0 <;> simp [opening_events, hset, mallocs]
  have hro : result_reads (opening_events env ctxt (args 0)) = [] := by
    by_cases hset : (ctxt.state 0).set ≠ 0 <;> simp [opening_events, hset, result_reads]
  rw [cmd_device env ctxt argc args dev hargc hopen hnet]
  cases hmalloc : env.grub_malloc
      (to_int ((digest dev (hash_name ctxt)).result_len * 2 + 1)) with
  | none =>
    rw [measure_no_memory env dev _ _ _ fs digest hprobe hdigest herr hmalloc]
    simp only [hm, hr, hmo, hro, tpm_calls_append, tpm_calls_opening_events]
    exact ⟨rfl, rfl, rfl⟩
  | some initial =>
    rw [measure_extended env dev _ _ _ fs digest initial hprobe hdigest herr hmalloc]
    simp only [hm, hr, hmo, hro, tpm_calls_append, tpm_calls_opening_events,
      mallocs_hex_loop_events, result_reads_hex_loop_events, tpm_calls_hex_loop_events]
    exact ⟨rfl, by simp [result_reads], rfl⟩

theorem mdlen_le_digest_capacity (algorithms : List hash_algorithm) (a : hash_algorithm)
    (ha : a ∈ algorithms) : a.mdlen ≤ digest_capacity algorithms := by
  induction algorithms with
  | nil => cases ha
  | cons b l ih =>
    simp only [digest_capacity, List.map_cons, List.foldr_cons] at ih ⊢
    rcases List.mem_cons.mp ha with rfl | h
    · exact le_max_left _ _
    · exact le_trans (ih h) (le_max_right _ _)

theorem spec_digest_success (algorithms : List hash_algorithm)
    (read_content : grub_device → Except Nat (List Nat)) (unknown_algorithm : Nat)
    (dev : grub_device) (hashalg : String)
    (herr : (spec_digest algorithms read_content unknown_algorithm dev hashalg).err =
      GRUB_ERR_NONE) :
    ∃ a, a ∈ algorithms ∧
      (spec_digest algorithms read_content unknown_algorithm dev hashalg).result_len =
        (a.mdlen : Int) := by
  unfold spec_digest at herr ⊢
  cases hfind : algorithms.find? fun a => a.name = hashalg with
  | none =>
    rw [hfind] at herr
    cases herr
  | some a =>
    rw [hfind] at herr
    cases hread : read_content dev with
    | error code =>
      rw [hread] at herr
      cases herr
    | ok content =>
      exact ⟨a, List.mem_of_find?_eq_some hfind, rfl⟩

/-- C10. For every outcome of the digest capability (as the spec describes
it: the fixed-length output of one of the supported hash algorithms, the
capacity of the digest buffer being the maximum digest length over all of
them) that reports success, the length len the command then uses does not
exceed GRUB_CRYPTO_MAX_MDLEN: the hex buffer is requested with 2*len+1 bytes
whether or not the allocation succeeds, every read result[j] has j < len and
lies inside the buffer, every grub_tpm_measure call receives len, and when
the allocation succeeds the reads are exactly those for j < len and there is
exactly one grub_tpm_measure call. -/
theorem digest_length_within_buffer (env : Env) (ctxt : grub_extcmd_context)
    (argc : Int) (args : Nat → String) (dev : grub_device) (fs : grub_fs)
    (algorithms : List hash_algorithm)
    (read_content : grub_device → Except Nat (List Nat)) (unknown_algorithm : Nat)
    (hargc : argc > 0)
    (hopen : env.grub_device_open (args 0) = Except.ok dev)
    (hnet : ¬ (dev.disk = none ∧ dev.net ≠ none))
    (hprobe : env.grub_fs_probe dev = some fs)
    (hdigest : fs.digest = some (spec_digest algorithms read_content unknown_algorithm))
    (hcap : digest_capacity algorithms = GRUB_CRYPTO_MAX_MDLEN)
    (herr : (spec_digest algorithms read_content unknown_algorithm dev (hash_name ctxt)).err =
      GRUB_ERR_NONE) :
    0 ≤ (spec_digest algorithms read_content unknown_algorithm dev
      (hash_name ctxt)).result_len ∧
    (spec_digest algorithms read_content unknown_algorithm dev (hash_name ctxt)).result_len ≤
      (GRUB_CRYPTO_MAX_MDLEN : Int) ∧
    mallocs (grub_cmd_measurefs env ctxt argc args).2 =
      [(spec_digest algorithms read_content unknown_algorithm dev
        (hash_name ctxt)).result_len * 2 + 1] ∧
    (∀ j ∈ result_reads (grub_cmd_measurefs env ctxt argc args).2,
      (j : Int) < (spec_digest algorithms read_content unknown_algorithm dev
        (hash_name ctxt)).result_len ∧ j < GRUB_CRYPTO_MAX_MDLEN) ∧
    (∀ e ∈ tpm_calls (grub_cmd_measurefs env ctxt argc args).2,
      ∃ buf pcr kind description,
        e = Event.grub_tpm_measure buf
          (spec_digest algorithms read_content unknown_algorithm dev
            (hash_name ctxt)).result_len pcr kind description) ∧
    ((env.grub_malloc
        ((spec_digest algorithms read_content unknown_algorithm dev
          (hash_name ctxt)).result_len * 2 + 1)).isSome = true →
      result_reads (grub_cmd_measurefs env ctxt argc args).2 =
        List.range (spec_digest algorithms read_content unknown_algorithm dev
          (hash_name ctxt)).result_len.toNat ∧
      (tpm_calls (grub_cmd_measurefs env ctxt argc args).2).length = 1) := by
  obtain ⟨a, ha, hlen⟩ :=
    spec_digest_success algorithms read_content unknown_algorithm dev (hash_name ctxt) herr
  have hbound : a.mdlen ≤ 64 := by
    have h := mdlen_le_digest_capacity algorithms a ha
    rw [hcap] at h
    exact h
  obtain ⟨hmallocs, hreads, htpm⟩ :=
    trace_after_digest env ctxt argc args dev fs _ hargc hopen hnet hprobe hdigest herr
  rw [hlen] at hmallocs hreads htpm ⊢
  have hsize : to_int ((a.mdlen : Int) * 2 + 1) = (a.mdlen : Int) * 2 + 1 := by
    rw [to_int_of_small] <;> omega
  rw [hsize] at hmallocs hreads htpm
  refine ⟨Int.natCast_nonneg _, ?_, hmallocs, ?_, ?_, ?_⟩
  · unfold GRUB_CRYPTO_MAX_MDLEN
    omega
  · intro j hj
    rw [hreads] at hj
    unfold GRUB_CRYPTO_MAX_MDLEN
    cases hmalloc : env.grub_malloc ((a.mdlen : Int) * 2 + 1) with
    | none =>
      rw [hmalloc] at hj
      cases hj
    | some initial =>
      rw [hmalloc] at hj
      simp only [Int.toNat_ofNat, List.mem_range] at hj
      omega
  · intro e he
    rw [htpm] at he
    cases hmalloc : env.grub_malloc ((a.mdlen : Int) * 2 + 1) with
    | none =>
      rw [hmalloc] at he
      cases he
    | some initial =>
      rw [hmalloc] at he
      simp only [List.mem_singleton] at he
      exact ⟨_, _, _, _, he⟩
  · intro hsome
    cases hmalloc : env.grub_malloc ((a.mdlen : Int) * 2 + 1) with
    | none =>
      rw [hmalloc] at hsome
      cases hsome
    | some initial =>
      rw [hreads, htpm, hmalloc]
      exact ⟨rfl, rfl⟩

/-! ## The scenarios -/

set_option maxRecDepth 100000

/-- Scenario B: with --pcr 7 the measurement goes to PCR 7. -/
theorem tpm_measure_pcr_option_witness :
    ∃ buf size pcr kind description,
      tpm_calls (grub_cmd_measurefs sample_env (pcr_option "7") 1
        (one_arg "(hd0,msdos1)")).2 =
        [Event.grub_tpm_measure buf size pcr kind description] ∧
      pcr = ((7 : Nat) : Int) ∧ 0 ≤ pcr :=
  tpm_measure_pcr_option sample_env (pcr_option "7") 1 (one_arg "(hd0,msdos1)") 7
    (by decide) (by decide) (by decide) (by decide)

/-- C9, counterexample. With --pcr 2147483648 (a decimal numeral of a
non-negative integer, which grub_strtoul returns unchanged) the successful
pipeline on (hd0,msdos1) calls grub_tpm_measure with PCR index -2147483648:
the index is neither N nor non-negative. -/
theorem pcr_option_wraps_negative :
    sample_env.grub_strtoul "2147483648" 10 = 2147483648 ∧
    tpm_calls (grub_cmd_measurefs sample_env (pcr_option "2147483648") 1
      (one_arg "(hd0,msdos1)")).2 =
      [Event.grub_tpm_measure sample_digest 32 (-2147483648) "squash4"
        (hex_encode sample_digest ++ [0])] ∧
    (-2147483648 : Int) < 0 := by
  decide

/-- The sample machine on (hd0,msdos1): the digest capability over
sample_algorithms, whose largest digest has 64 bytes, reports the length 32;
65 bytes are requested and the reads are those of result[0] to result[31]. -/
theorem digest_length_within_buffer_witness :
    digest_capacity sample_algorithms = GRUB_CRYPTO_MAX_MDLEN ∧
    mallocs (grub_cmd_measurefs sample_env no_options 1 (one_arg "(hd0,msdos1)")).2 = [65] ∧
    result_reads (grub_cmd_measurefs sample_env no_options 1 (one_arg "(hd0,msdos1)")).2 =
      List.range 32 ∧
    (∀ j ∈ result_reads (grub_cmd_measurefs sample_env no_options 1
        (one_arg "(hd0,msdos1)")).2, j < GRUB_CRYPTO_MAX_MDLEN) ∧
    (tpm_calls (grub_cmd_measurefs sample_env no_options 1
      (one_arg "(hd0,msdos1)")).2).length = 1 := by
  have h := digest_length_within_buffer sample_env no_options 1 (one_arg "(hd0,msdos1)")
    { disk := some 1, net := none } squash4 sample_algorithms (fun _ => Except.ok []) 18
    (by decide) rfl (by decide) rfl rfl (by decide) rfl
  exact ⟨by decide, h.2.2.1, (h.2.2.2.2.2 rfl).1, fun j hj => (h.2.2.2.1 j hj).2,
    (h.2.2.2.2.2 rfl).2⟩

end Measurefs
